import Mathlib

/-!
Shallow embedding of the omaha-client update-check state machine
(`src/state_machine.rs`), with the collaborator surfaces it relies on
(policy engine, HTTP exchange, response parser, installer, storage,
metrics reporter) supplied as oracle inputs in an `Env` record.

Pure functions of the source (`randomize`, `make_response`,
`get_app_update_statuses`, the failure-reason classification) are
translated directly; the async pipeline (`perform_update_check`,
`start_update_check`) is translated as a pure function from the oracle
environment and the storage state to the emitted event trace, the
reported metrics, the final storage and the attempt result.

Types of this repository that live in modules not present under `src/`
(`common.rs`, `update_check.rs`, `protocol/response.rs`, `storage.rs`,
`metrics.rs`) are modelled from the spec; each such definition carries a
doc comment saying so.
-/

namespace OmahaClient

/-- Modelled from the spec: `CheckOptions` source variants (spec section 3,
`common.rs` is not in the sources). -/
inductive InstallSource
  | scheduledTask
  | onDemand
deriving DecidableEq, Repr

/-- Modelled from the spec: `CheckOptions = {source}` with default source
`ScheduledTask` (spec sections 3 and 4.1). -/
structure CheckOptions where
  source : InstallSource
deriving DecidableEq, Repr

def CheckOptions.default : CheckOptions := ⟨.scheduledTask⟩

/-- Modelled from the spec and `policy/stub.rs`: the request parameters a
positive policy decision carries. -/
structure RequestParams where
  source : InstallSource
  use_configured_proxies : Bool
deriving DecidableEq, Repr

/-- `CheckDecision` from `policy.rs` via the spec (spec section 3). -/
inductive CheckDecision
  | ok (rp : RequestParams)
  | okUpdateDeferred (rp : RequestParams)
  | tooSoon
  | throttledByPolicy
  | deniedByPolicy
deriving DecidableEq, Repr

/-- `UpdateDecision` (spec section 3). -/
inductive UpdateDecision
  | ok
  | deferredByPolicy
  | deniedByPolicy
deriving DecidableEq, Repr

/-- `State` from `state_machine.rs` lines 98-108. -/
inductive State
  | idle
  | checkingForUpdates
  | errorCheckingForUpdate
  | noUpdateAvailable
  | installationDeferredByPolicy
  | installingUpdate
  | waitingForReboot
  | installationError
deriving DecidableEq, Repr

/-- `OmahaRequestError` from `state_machine.rs` lines 112-125.  A hyper
transport error is carried together with its `is_user()` flag; an HTTP
status error carries the status code. -/
inductive OmahaRequestError
  | json
  | httpBuilder
  | hyper (is_user : Bool)
  | httpStatus (code : Nat)
deriving DecidableEq, Repr

/-- `ResponseParseError` from `state_machine.rs` lines 162-170. -/
inductive ResponseParseError
  | utf8
  | json
deriving DecidableEq, Repr

/-- `UpdateCheckError` from `state_machine.rs` lines 172-185. -/
inductive UpdateCheckError
  | policy (d : CheckDecision)
  | omahaRequest (e : OmahaRequestError)
  | responseParser (e : ResponseParseError)
  | installPlan
deriving DecidableEq, Repr

/-- Modelled from the spec: the failure-reason classes of
`UpdateCheckFailureReason` (`metrics.rs` is not in the sources; spec
sections 4.2 P3/P4 and 7 name Omaha, Network and Internal). -/
inductive UpdateCheckFailureReason
  | omaha
  | network
  | internal
deriving DecidableEq, Repr

/-- `StartUpdateCheckResponse` from `state_machine.rs` lines 213-221. -/
inductive StartUpdateCheckResponse
  | started
  | alreadyRunning
deriving DecidableEq, Repr

/-- Modelled from the spec: a cohort is an (id, hint, name) tuple of
optional strings (spec section 3 and glossary). -/
structure Cohort where
  id : Option String
  hint : Option String
  name : Option String
deriving DecidableEq, Repr

/-- Modelled from the spec: the user-counting variant
`ClientRegulatedByDate(day-count?)` (spec section 3). -/
inductive UserCounting
  | clientRegulatedByDate (days : Option Nat)
deriving DecidableEq, Repr

/-- Modelled from the spec: the update-check status carried in a parsed
server response for one app (`protocol/response.rs` is not in the
sources; spec section 8 scenarios use "ok" and "noupdate"). -/
inductive OmahaStatus
  | ok
  | noupdate
  | error (s : String)
deriving DecidableEq, Repr

/-- Modelled from the spec: the update-check element of one app in a
parsed server response. -/
structure UpdateCheck where
  status : OmahaStatus
deriving DecidableEq, Repr

/-- Modelled from the spec: one app entry of a parsed server response. -/
structure RespApp where
  id : String
  cohort : Cohort
  update_check : Option UpdateCheck
deriving DecidableEq, Repr

/-- Modelled from the spec: the daystart record of a parsed server
response (elapsed days drive user counting). -/
structure DayStart where
  elapsed_days : Option Nat
deriving DecidableEq, Repr

/-- Modelled from the spec: a parsed server response: per-app entries, an
optional daystart, and the optional server-dictated poll interval the
glossary describes as "an optional interval returned by the server to
override local scheduling" (spec sections 3, 6 and glossary;
`protocol/response.rs` is not in the sources).  Durations are in
microseconds. -/
structure Response where
  apps : List RespApp
  daystart : Option DayStart
  server_dictated_poll_interval : Option Int
deriving DecidableEq, Repr

/-- Conversion of the response daystart into user counting, modelled from
the spec (spec section 3 and the `test_user_counting_returned` test). -/
def dayStartToUserCounting : Option DayStart → UserCounting
  | some d => .clientRegulatedByDate d.elapsed_days
  | none => .clientRegulatedByDate none

/-- `update_check::Action` modelled from the spec (spec section 3;
`update_check.rs` is not in the sources). -/
inductive Action
  | noUpdate
  | updated
  | deferredByPolicy
  | deniedByPolicy
  | installPlanExecutionError
deriving DecidableEq, Repr

/-- `update_check::AppResponse` modelled from the spec (spec section 3). -/
structure AppResponse where
  app_id : String
  cohort : Cohort
  user_counting : UserCounting
  result : Action
deriving DecidableEq, Repr

/-- `update_check::Response` modelled from the spec (spec section 3): the
attempt result handed back by the pipeline. -/
structure UpdateCheckResponse where
  app_responses : List AppResponse
  server_dictated_poll_interval : Option Int
deriving DecidableEq, Repr

/-- `make_response` from `state_machine.rs` lines 836-853: clone one
aggregate action into the result of every app of the server response;
the returned `server_dictated_poll_interval` is the literal `None` of the
source. -/
def make_response (response : Response) (action : Action) : UpdateCheckResponse :=
  { app_responses := response.apps.map fun app =>
      { app_id := app.id
        cohort := app.cohort
        user_counting := dayStartToUserCounting response.daystart
        result := action }
    server_dictated_poll_interval := none }

/-- `get_app_update_statuses` from `state_machine.rs` lines 820-829. -/
def get_app_update_statuses (response : Response) : List (String × OmahaStatus) :=
  response.apps.filterMap fun app => app.update_check.map fun u => (app.id, u.status)

/-- The `some_app_has_update` test of `perform_update_check`
(`state_machine.rs` line 598): any app whose update-check status is Ok. -/
def some_app_has_update (response : Response) : Bool :=
  (get_app_update_statuses response).any fun p => p.2 == OmahaStatus.ok

/-- `UpdateCheckSchedule` modelled from the spec (spec section 3;
`common.rs` is not in the sources).  Times are wall-clock microseconds
since the epoch. -/
structure UpdateCheckSchedule where
  last_update_time : Option Int
  next_update_time : Option Int
deriving DecidableEq, Repr

/-- `ProtocolState` modelled from the spec (spec section 3).  The
counters are u32 values in the source; increments are taken mod 2^32. -/
structure ProtocolState where
  server_dictated_poll_interval : Option Int
  consecutive_failed_update_checks : Nat
  consecutive_failed_update_attempts : Nat
  consecutive_proxied_requests : Nat
deriving DecidableEq, Repr

/-- `update_check::Context` modelled from the spec (spec section 3). -/
structure Context where
  schedule : UpdateCheckSchedule
  state : ProtocolState
deriving DecidableEq, Repr

/-- u32 wrapping increment (`+= 1` on a `u32` of the source). -/
def u32Incr (n : Nat) : Nat := (n + 1) % 2 ^ 32

/-- An app of the app set, modelled from the spec (spec section 3;
`common.rs` is not in the sources). -/
structure App where
  id : String
  version : List Nat
  cohort : Cohort
  user_counting : UserCounting
deriving DecidableEq, Repr

deriving instance DecidableEq for Except

/-- `StateMachineEvent` from `state_machine/observer.rs` via the event
list of spec section 6.  Install progress is carried as an opaque tick
index (the f32 payload is not modelled). -/
inductive StateMachineEvent
  | stateChange (s : State)
  | scheduleChange (s : UpdateCheckSchedule)
  | protocolStateChange (p : ProtocolState)
  | updateCheckResult (r : Except UpdateCheckError UpdateCheckResponse)
  | omahaServerResponse (r : Response)
  | installProgressChange (progress : Nat)
deriving DecidableEq, Repr

/-- Metrics from `metrics.rs`, modelled from the spec (spec sections 4.2
and 8; `metrics.rs` is not in the sources).  Durations are opaque
microsecond counts. -/
inductive Metrics
  | updateCheckResponseTime (millis : Nat)
  | updateCheckRetries (attempts : Nat)
  | updateCheckInterval (micros : Int)
  | updateCheckFailureReason (r : UpdateCheckFailureReason)
  | attemptsToSucceed (n : Int)
  | successfulUpdateDuration (micros : Int)
  | successfulUpdateFromFirstSeen (micros : Int)
  | failedUpdateDuration (micros : Int)
deriving DecidableEq, Repr

/-! ## Storage -/

/-- A stored value: the storage of the source keys strings to either
integers or strings (spec sections 3 and 6; `storage.rs` is not in the
sources, modelled from the spec). -/
inductive StoredValue
  | intVal (v : Int)
  | strVal (s : String)
deriving DecidableEq, Repr

/-- The key-value view of storage. -/
def KV : Type := String → Option StoredValue

/-- Staged data plus the durable (committed) copy; `commit` copies the
staged data to the durable copy (spec section 6 Storage contract). -/
structure Storage where
  data : KV
  durable : KV

def KV.getInt (kv : KV) (k : String) : Option Int :=
  match kv k with
  | some (.intVal v) => some v
  | _ => none

def KV.getString (kv : KV) (k : String) : Option String :=
  match kv k with
  | some (.strVal s) => some s
  | _ => none

def KV.setInt (kv : KV) (k : String) (v : Int) : KV :=
  fun k2 => if k2 = k then some (.intVal v) else kv k2

def KV.setString (kv : KV) (k : String) (v : String) : KV :=
  fun k2 => if k2 = k then some (.strVal v) else kv k2

def KV.removeKey (kv : KV) (k : String) : KV :=
  fun k2 => if k2 = k then none else kv k2

/-- Modelled from the spec: `StorageExt::set_option_int` stores the
integer when present and removes the key when absent (spec section 6
lists `set_option_int` among the Storage operations). -/
def KV.setOptionInt (kv : KV) (k : String) (v : Option Int) : KV :=
  match v with
  | some x => kv.setInt k x
  | none => kv.removeKey k

/-- `commit`: on success the staged data becomes durable; a failed commit
is logged and changes nothing. -/
def Storage.commit (st : Storage) (ok : Bool) : Storage :=
  if ok then { st with durable := st.data } else st

/-- The well-known persisted keys (`state_machine.rs` lines 54-57 and the
keys of `update_check.rs` named by spec section 3). -/
def LAST_CHECK_TIME : String := "last_check_time"

def INSTALL_PLAN_ID : String := "install_plan_id"

def UPDATE_FIRST_SEEN_TIME : String := "update_first_seen_time"

def CONSECUTIVE_FAILED_UPDATE_CHECKS : String := "consecutive_failed_update_checks"

def LAST_UPDATE_TIME : String := "last_update_time"

def SERVER_DICTATED_POLL_INTERVAL : String := "server_dictated_poll_interval"

/-- Per-call-site storage failure injection: each flag tells whether the
corresponding storage operation of one attempt succeeds. -/
structure StorageFlags where
  setLastCheckTimeOk : Bool
  commitLastCheckTimeOk : Bool
  setPlanIdOk : Bool
  setFirstSeenOk : Bool
  removePlanIdOk : Bool
  commitFirstSeenOk : Bool
  removeConsecOk : Bool
  setConsecOk : Bool
  commitPersistOk : Bool
deriving DecidableEq, Repr

/-! ## randomize and the request retry loop -/

/-- `randomize` from `state_machine.rs` lines 907-910:
`n - range / 2 + rand::random::<u64>() % range` with u64 wrapping
arithmetic, applied to the oracle draw `rand`.  For the in-range inputs
of the source (`range / 2 ≤ n`, `n + range ≤ 2^64`) this is
`n - range / 2 + rand % range`. -/
def randomize (n range rand : Nat) : Nat :=
  (n + 2 ^ 64 - range / 2 + rand % range) % 2 ^ 64

/-- What a single Omaha exchange can produce: the collected body bytes or
an `OmahaRequestError` (`do_omaha_request`, `state_machine.rs` lines
775-788). -/
def ExchangeOutcome : Type := Except OmahaRequestError (List Nat)

/-- Result of the retry loop: the body and the number of the attempt that
succeeded, or the terminal error and the attempt it occurred on. -/
inductive LoopResult
  | success (data : List Nat) (attempts : Nat)
  | failure (e : OmahaRequestError) (attempts : Nat)
deriving DecidableEq, Repr

/-- Whether an exchange error terminates the retry loop at `attempt`
(`state_machine.rs` lines 532-557): Json and HttpBuilder errors are
always terminal; a hyper transport error is terminal when the attempt
budget is exhausted or the error is a user error; an HTTP status error
is terminal when the budget is exhausted. -/
def retryTerminal (e : OmahaRequestError) (attempt maxAttempts : Nat) : Bool :=
  match e with
  | .json => true
  | .httpBuilder => true
  | .hyper is_user => attempt ≥ maxAttempts || is_user
  | .httpStatus _ => attempt ≥ maxAttempts

/-- The body of the retry loop of `perform_update_check`
(`state_machine.rs` lines 524-568), with explicit fuel (the fuel is
never exhausted when it starts at `maxAttempts`, since a non-terminal
error implies `attempt < maxAttempts`).  Returns the loop result and the
list of backoff sleeps (milliseconds) performed between attempts:
`randomize((1 << (attempt-1)) * 1000, 1000)`. -/
def requestLoopGo (exchange : Nat → ExchangeOutcome) (rand : Nat → Nat)
    (maxAttempts : Nat) : Nat → Nat → LoopResult × List Nat
  | fuel, attempt =>
    match exchange attempt with
    | .ok d => (.success d attempt, [])
    | .error e =>
      if retryTerminal e attempt maxAttempts then (.failure e attempt, [])
      else
        match fuel with
        | 0 => (.failure e attempt, [])
        | fuel' + 1 =>
          let backoff := randomize ((1 <<< (attempt - 1)) * 1000) 1000 (rand attempt)
          let rest := requestLoopGo exchange rand maxAttempts fuel' (attempt + 1)
          (rest.1, backoff :: rest.2)

/-- The retry loop with the source constants: `omaha_request_attempt`
starts at 1 and `max_omaha_request_attempts = 3`. -/
def performRequestLoop (exchange : Nat → ExchangeOutcome) (rand : Nat → Nat) :
    LoopResult × List Nat :=
  requestLoopGo exchange rand 3 3 1

/-- The attempt count a loop result carries. -/
def LoopResult.attempts : LoopResult → Nat
  | .success _ a => a
  | .failure _ a => a

/-! ## The oracle environment of one attempt -/

/-- An install plan: only its `id()` is observable to the state machine. -/
structure InstallPlan where
  planId : String
deriving DecidableEq, Repr

/-- The oracle environment for one attempt: the answers of the external
collaborators (policy engine, HTTP client, response parser, installer,
random source, clock) and the storage failure injection.  The state
machine treats each collaborator as a black box, so its behaviour during
one attempt is fully described by these answers. -/
structure Env where
  update_check_allowed : CheckOptions → CheckDecision
  exchange : Nat → ExchangeOutcome
  rand : Nat → Nat
  responseTimeMillis : Nat
  parse : List Nat → Except ResponseParseError Response
  try_create_install_plan : RequestParams → Response → Except String InstallPlan
  update_can_start : InstallPlan → UpdateDecision
  installResult : Except String Unit
  installProgress : List Nat
  nowMicros : Int
  apps : List App
  rebootPolls : Nat
  flags : StorageFlags

/-! ## Storage-facing helpers of the state machine -/

/-- `report_check_interval` from `state_machine.rs` lines 331-351: report
the interval since the persisted `last_check_time` when it is present and
not in the future, then overwrite `last_check_time` with now and commit;
a failed set skips the commit; failures are logged only. -/
def report_check_interval (env : Env) (st : Storage) : Storage × List Metrics :=
  let m := match st.data.getInt LAST_CHECK_TIME with
    | some last =>
      if last ≤ env.nowMicros then [Metrics.updateCheckInterval (env.nowMicros - last)] else []
    | none => []
  if env.flags.setLastCheckTimeOk then
    let st1 : Storage := { st with data := st.data.setInt LAST_CHECK_TIME env.nowMicros }
    (st1.commit env.flags.commitLastCheckTimeOk, m)
  else (st, m)

/-- `record_update_first_seen_time` from `state_machine.rs` lines
871-904.  When the stored `install_plan_id` equals the observed one,
return the stored first-seen time (or now when it is absent) and change
nothing.  Otherwise write the new id and now; when the first-seen write
fails, remove the just-written id (best effort) and return now; commit
failures are logged. -/
def record_update_first_seen_time (flags : StorageFlags) (st : Storage)
    (install_plan_id : String) (now : Int) : Int × Storage :=
  let recordNew : Int × Storage :=
    if flags.setPlanIdOk then
      let st1 : Storage := { st with data := st.data.setString INSTALL_PLAN_ID install_plan_id }
      if flags.setFirstSeenOk then
        let st2 : Storage :=
          { st1 with data := st1.data.setInt UPDATE_FIRST_SEEN_TIME now }
        (now, st2.commit flags.commitFirstSeenOk)
      else
        (now,
          if flags.removePlanIdOk then
            { st1 with data := st1.data.removeKey INSTALL_PLAN_ID }
          else st1)
    else (now, st)
  match st.data.getString INSTALL_PLAN_ID with
  | some previous_id =>
    if previous_id = install_plan_id then
      ((st.data.getInt UPDATE_FIRST_SEEN_TIME).getD now, st)
    else recordNew
  | none => recordNew

/-- `report_attempts_to_succeed` from `state_machine.rs` lines 446-460:
read the persisted failed-check count (default 0) plus one; on success
remove the key and report `AttemptsToSucceed`; on failure persist the
incremented count.  Does not commit. -/
def report_attempts_to_succeed (flags : StorageFlags) (st : Storage) (success : Bool) :
    Storage × List Metrics :=
  let attempts := (st.data.getInt CONSECUTIVE_FAILED_UPDATE_CHECKS).getD 0 + 1
  if success then
    (if flags.removeConsecOk then
        { st with data := st.data.removeKey CONSECUTIVE_FAILED_UPDATE_CHECKS }
      else st,
      [Metrics.attemptsToSucceed attempts])
  else
    (if flags.setConsecOk then
        { st with data := st.data.setInt CONSECUTIVE_FAILED_UPDATE_CHECKS attempts }
      else st,
      [])

/-- Modelled from the spec: the serialized per-app record {cohort,
user_counting} persisted under the app id (spec sections 3 and 6;
`common.rs` `PersistedApp` is not in the sources).  The exact wire format
is irrelevant; this encoding is injective on the persisted fields. -/
def encodePersistedApp (c : Cohort) (u : UserCounting) : String :=
  let eo : Option String → String
    | none => "-"
    | some s => "+" ++ s
  let ud : String := match u with
    | .clientRegulatedByDate none => "-"
    | .clientRegulatedByDate (some d) => toString d
  eo c.id ++ "|" ++ eo c.hint ++ "|" ++ eo c.name ++ "|" ++ ud

/-- Modelled from the spec: `Context::persist` and `AppSet::persist`
followed by `commit` (`persist_data`, `state_machine.rs` lines 463-471;
`update_check.rs` and `common.rs` are not in the sources).  Spec section
3 lists the persisted keys: `last_update_time`,
`server_dictated_poll_interval` and one record per app id. -/
def persist_data (flags : StorageFlags) (ctx : Context) (apps : List App)
    (st : Storage) : Storage :=
  let d1 := st.data.setOptionInt LAST_UPDATE_TIME ctx.schedule.last_update_time
  let d2 := d1.setOptionInt SERVER_DICTATED_POLL_INTERVAL ctx.state.server_dictated_poll_interval
  let d3 := apps.foldl
    (fun d app => d.setString app.id (encodePersistedApp app.cohort app.user_counting)) d2
  Storage.commit { st with data := d3 } flags.commitPersistOk

/-- Modelled from the spec: `AppSet::update_from_omaha` applies the
cohort and user-counting of each app response to the matching app (spec
sections 3 and 8 scenario 2; `common.rs` is not in the sources). -/
def update_from_omaha (apps : List App) (resps : List AppResponse) : List App :=
  apps.map fun app =>
    match resps.find? (fun r => r.app_id == app.id) with
    | some r => { app with cohort := r.cohort, user_counting := r.user_counting }
    | none => app

/-! ## The pipeline: perform_update_check -/

/-- Everything one run of `perform_update_check` produces: the emitted
events, the reported metrics, the storage state, the machine state last
set by `set_state`, the backoff sleeps of the retry loop (milliseconds)
and the result. -/
structure PipelineOut where
  events : List StateMachineEvent
  metrics : List Metrics
  storage : Storage
  machineState : State
  sleeps : List Nat
  result : Except UpdateCheckError UpdateCheckResponse

/-- The phases of `perform_update_check` after a positive policy decision
(`state_machine.rs` lines 514-718), with `rp` the request params the
decision carried. -/
def pipelineChecking (env : Env) (rp : RequestParams) (st0 : Storage) : PipelineOut :=
  let ev0 : List StateMachineEvent := [.stateChange .checkingForUpdates]
  let rci := report_check_interval env st0
  let st1 := rci.1
  let m1 := rci.2
  let loopOut := performRequestLoop env.exchange env.rand
  match loopOut.1 with
  | .failure e _ =>
    { events := ev0 ++ [.stateChange .errorCheckingForUpdate], metrics := m1, storage := st1
      machineState := .errorCheckingForUpdate, sleeps := loopOut.2
      result := .error (.omahaRequest e) }
  | .success data attempts =>
    let m2 := m1 ++ [Metrics.updateCheckResponseTime env.responseTimeMillis,
      Metrics.updateCheckRetries attempts]
    match env.parse data with
    | .error err =>
      { events := ev0 ++ [.stateChange .errorCheckingForUpdate], metrics := m2, storage := st1
        machineState := .errorCheckingForUpdate, sleeps := loopOut.2
        result := .error (.responseParser err) }
    | .ok response =>
      let ev1 := ev0 ++ [.omahaServerResponse response]
      if some_app_has_update response = false then
        { events := ev1 ++ [.stateChange .noUpdateAvailable], metrics := m2, storage := st1
          machineState := .noUpdateAvailable, sleeps := loopOut.2
          result := .ok (make_response response .noUpdate) }
      else
        match env.try_create_install_plan rp response with
        | .error _ =>
          { events := ev1 ++ [.stateChange .installingUpdate, .stateChange .installationError]
            metrics := m2, storage := st1, machineState := .installationError
            sleeps := loopOut.2, result := .error .installPlan }
        | .ok plan =>
          match env.update_can_start plan with
          | .deferredByPolicy =>
            { events := ev1 ++ [.stateChange .installationDeferredByPolicy], metrics := m2
              storage := st1, machineState := .installationDeferredByPolicy
              sleeps := loopOut.2, result := .ok (make_response response .deferredByPolicy) }
          | .deniedByPolicy =>
            { events := ev1 ++ [.stateChange .installingUpdate, .stateChange .installationError]
              metrics := m2, storage := st1, machineState := .installationError
              sleeps := loopOut.2, result := .ok (make_response response .deniedByPolicy) }
          | .ok =>
            let ev2 := ev1 ++ [.stateChange .installingUpdate]
            let rec1 := record_update_first_seen_time env.flags st1 plan.planId env.nowMicros
            let first_seen := rec1.1
            let st2 := rec1.2
            let ev3 := ev2 ++ env.installProgress.map StateMachineEvent.installProgressChange
            match env.installResult with
            | .error _ =>
              { events := ev3 ++ [.stateChange .installationError]
                metrics := m2 ++ [Metrics.failedUpdateDuration 0], storage := st2
                machineState := .installationError, sleeps := loopOut.2
                result := .ok (make_response response .installPlanExecutionError) }
            | .ok _ =>
              let m3 := m2 ++ [Metrics.successfulUpdateDuration 0] ++
                (if first_seen ≤ env.nowMicros then
                  [Metrics.successfulUpdateFromFirstSeen (env.nowMicros - first_seen)]
                else [])
              { events := ev3 ++ [.stateChange .waitingForReboot], metrics := m3, storage := st2
                machineState := .waitingForReboot, sleeps := loopOut.2
                result := .ok (make_response response .updated) }

/-- `perform_update_check` from `state_machine.rs` lines 475-718: the
policy gate (P1) followed by the checking pipeline.  A negative decision
returns `Policy(decision)` before any event, state change or storage
write. -/
def perform_update_check (env : Env) (opts : CheckOptions) (st0 : Storage) (s0 : State) :
    PipelineOut :=
  let decision := env.update_check_allowed opts
  match decision with
  | .ok rp | .okUpdateDeferred rp => pipelineChecking env rp st0
  | .tooSoon =>
    { events := [], metrics := [], storage := st0, machineState := s0, sleeps := []
      result := .error (.policy decision) }
  | .throttledByPolicy =>
    { events := [], metrics := [], storage := st0, machineState := s0, sleeps := []
      result := .error (.policy decision) }
  | .deniedByPolicy =>
    { events := [], metrics := [], storage := st0, machineState := s0, sleeps := []
      result := .error (.policy decision) }

/-! ## start_update_check -/

/-- The failure bookkeeping of `start_update_check` (`state_machine.rs`
lines 399-416): the new schedule (last_update_time is refreshed exactly
for the Omaha-reachable errors) and the failure-reason classification. -/
def fail_bookkeeping (e : UpdateCheckError) (sched : UpdateCheckSchedule) (now : Int) :
    UpdateCheckSchedule × UpdateCheckFailureReason :=
  match e with
  | .responseParser _ => ({ sched with last_update_time := some now }, .omaha)
  | .installPlan => ({ sched with last_update_time := some now }, .omaha)
  | .policy _ => (sched, .internal)
  | .omahaRequest re =>
    match re with
    | .json => (sched, .internal)
    | .httpBuilder => (sched, .internal)
    | .hyper _ => (sched, .network)
    | .httpStatus _ => (sched, .network)

/-- Everything one run of `start_update_check` produces. -/
structure AttemptOut where
  events : List StateMachineEvent
  metrics : List Metrics
  storage : Storage
  context : Context
  apps : List App
  sleeps : List Nat
  rebootWaitsMinutes : List Nat
  result : Except UpdateCheckError UpdateCheckResponse
  machineState : State

/-- `start_update_check` from `state_machine.rs` lines 355-442: run the
pipeline, reconcile the context (success: last_update_time := now,
server_dictated_poll_interval := the result's interval, failed-attempts
counter, failed-checks counter reset; failure: failed-checks counter
incremented, failure classification), emit ScheduleChange,
ProtocolStateChange and UpdateCheckResult, persist, run the reboot gate
when the machine state is WaitingForReboot (30-minute polls, no events),
and finish with StateChange(Idle). -/
def start_update_check (env : Env) (opts : CheckOptions) (ctx : Context) (st0 : Storage)
    (s0 : State) : AttemptOut :=
  let p := perform_update_check env opts st0 s0
  let post : Context × List App × Storage × List Metrics :=
    match p.result with
    | .ok result =>
      let schedule1 := { ctx.schedule with last_update_time := some env.nowMicros }
      let cfua :=
        if result.app_responses.any (fun app => app.result == Action.installPlanExecutionError)
        then u32Incr ctx.state.consecutive_failed_update_attempts
        else 0
      let state1 := { ctx.state with
        server_dictated_poll_interval := result.server_dictated_poll_interval
        consecutive_failed_update_attempts := cfua
        consecutive_failed_update_checks := 0 }
      let apps1 := update_from_omaha env.apps result.app_responses
      let rats := report_attempts_to_succeed env.flags p.storage true
      (⟨schedule1, state1⟩, apps1, rats.1, rats.2)
    | .error e =>
      let cfuc := u32Incr ctx.state.consecutive_failed_update_checks
      let fb := fail_bookkeeping e ctx.schedule env.nowMicros
      let state1 := { ctx.state with consecutive_failed_update_checks := cfuc }
      let rats := report_attempts_to_succeed env.flags p.storage false
      (⟨fb.1, state1⟩, env.apps, rats.1, [Metrics.updateCheckFailureReason fb.2] ++ rats.2)
  let ctx1 := post.1
  let apps1 := post.2.1
  let st2 := persist_data env.flags ctx1 apps1 post.2.2.1
  { events := p.events ++
      [.scheduleChange ctx1.schedule, .protocolStateChange ctx1.state,
        .updateCheckResult p.result, .stateChange .idle]
    metrics := p.metrics ++ post.2.2.2
    storage := st2
    context := ctx1
    apps := apps1
    sleeps := p.sleeps
    rebootWaitsMinutes :=
      if p.machineState = State.waitingForReboot then List.replicate env.rebootPolls 30 else []
    result := p.result
    machineState := .idle }

/-! ## The scheduler loop control surface -/

/-- What wakes the scheduler loop from its idle wait (`state_machine.rs`
lines 301-309): the composite timer fires, or a `StartUpdateCheck`
control request arrives. -/
inductive WakeSource
  | timerFired
  | controlMsg (options : CheckOptions)
deriving DecidableEq, Repr

/-- The idle-wait selection of the run loop: a timer wakeup uses default
options and sends no reply; a control request is answered `Started` and
its options are used. -/
def selected_options : WakeSource → CheckOptions × List StartUpdateCheckResponse
  | .timerFired => (CheckOptions.default, [])
  | .controlMsg options => (options, [.started])

/-- One iteration of the run loop (`state_machine.rs` lines 276-326)
around an attempt: the idle-wait selection picks the options, the
attempt runs, and every control request received while the attempt is in
progress is answered `AlreadyRunning` with its options discarded. -/
structure IterationOut where
  attempt : AttemptOut
  idleReplies : List StartUpdateCheckResponse
  attemptReplies : List StartUpdateCheckResponse

def run_iteration (env : Env) (ctx : Context) (st0 : Storage) (s0 : State)
    (wake : WakeSource) (duringAttempt : List CheckOptions) : IterationOut :=
  let sel := selected_options wake
  { attempt := start_update_check env sel.1 ctx st0 s0
    idleReplies := sel.2
    attemptReplies := duringAttempt.map fun _ => .alreadyRunning }

/-! ## Event and result classifiers used by the theorems -/

def isScheduleChange : StateMachineEvent → Bool
  | .scheduleChange _ => true
  | _ => false

def isProtocolStateChange : StateMachineEvent → Bool
  | .protocolStateChange _ => true
  | _ => false

def isUpdateCheckResult : StateMachineEvent → Bool
  | .updateCheckResult _ => true
  | _ => false

/-- An event of the post-attempt triplet kind. -/
def isTripletEvent (e : StateMachineEvent) : Bool :=
  isScheduleChange e || isProtocolStateChange e || isUpdateCheckResult e

def resultIsOk : Except UpdateCheckError UpdateCheckResponse → Bool
  | .ok _ => true
  | .error _ => false

/-- The exchange errors the retry loop retries when attempts remain:
transport errors that are not user errors, and HTTP status errors. -/
def retryableErr : OmahaRequestError → Bool
  | .hyper is_user => !is_user
  | .httpStatus _ => true
  | _ => false

/-! ## Concrete fixtures for witnesses and counterexamples -/

def emptyKV : KV := fun _ => none

def emptyStorage : Storage := ⟨emptyKV, emptyKV⟩

def allStorageOk : StorageFlags :=
  ⟨true, true, true, true, true, true, true, true, true⟩

/-- A parsed response with one no-update app that carries a
server-dictated poll interval of 300 microseconds. -/
def demoResponse : Response :=
  { apps := [{ id := "A"
               cohort := ⟨some "1", none, some "stable-channel"⟩
               update_check := some ⟨.noupdate⟩ }]
    daystart := some ⟨some 1234567⟩
    server_dictated_poll_interval := some 300 }

def demoApp : App :=
  { id := "A"
    version := [1, 2, 3, 4]
    cohort := ⟨none, none, some "stable-channel"⟩
    user_counting := .clientRegulatedByDate none }

def demoContext : Context := ⟨⟨none, none⟩, ⟨none, 2, 0, 0⟩⟩

/-- An environment whose attempt succeeds with a no-update response. -/
def demoEnv : Env :=
  { update_check_allowed := fun o => .ok ⟨o.source, true⟩
    exchange := fun _ => .ok [1, 2]
    rand := fun i => 100 * i
    responseTimeMillis := 5
    parse := fun _ => .ok demoResponse
    try_create_install_plan := fun _ _ => .ok ⟨"plan1"⟩
    update_can_start := fun _ => .ok
    installResult := .ok ()
    installProgress := [0, 3, 9, 10]
    nowMicros := 777
    apps := [demoApp]
    rebootPolls := 0
    flags := allStorageOk }

/-- An environment whose every exchange fails with HTTP status 500. -/
def demoEnvNetworkFail : Env :=
  { demoEnv with exchange := fun _ => .error (.httpStatus 500) }

/-- An environment whose policy gate answers TooSoon. -/
def demoEnvTooSoon : Env :=
  { demoEnv with update_check_allowed := fun _ => .tooSoon }

/-- A storage that already carries the per-app record of `demoApp`, for
the frame theorems. -/
def demoStorageWithApp : Storage :=
  ⟨emptyKV.setString "A" (encodePersistedApp demoApp.cohort demoApp.user_counting), emptyKV⟩

/-- A storage carrying a first-seen record for plan id "plan0" at time
100, for the first-seen-time theorems. -/
def demoStorageFirstSeen : Storage :=
  ⟨(emptyKV.setString INSTALL_PLAN_ID "plan0").setInt UPDATE_FIRST_SEEN_TIME 100, emptyKV⟩

/-- How many of the 2^64 possible draws of `rand::random::<u64>()` make
`randomize n range` produce `out`.  `randomize` returns a uniform value
precisely when this count is the same for every `out` of the output
interval. -/
def fiberCount (n range out : Nat) : Nat :=
  Nat.count (fun x => randomize n range x = out) (2 ^ 64)

/-! ## Helper lemmas -/

theorem pipelineChecking_result_cases (env : Env) (rp : RequestParams) (st0 : Storage) :
    (∃ e, (pipelineChecking env rp st0).result = Except.error e)
    ∨ ∃ resp action,
        (pipelineChecking env rp st0).result = Except.ok (make_response resp action) := by
  simp only [pipelineChecking]
  repeat' split
  all_goals first
    | exact Or.inl ⟨_, rfl⟩
    | exact Or.inr ⟨_, _, rfl⟩

theorem perform_result_cases (env : Env) (opts : CheckOptions) (st0 : Storage) (s0 : State) :
    (∃ e, (perform_update_check env opts st0 s0).result = Except.error e)
    ∨ ∃ resp action,
        (perform_update_check env opts st0 s0).result = Except.ok (make_response resp action) := by
  simp only [perform_update_check]
  split
  any_goals exact pipelineChecking_result_cases env _ st0
  all_goals exact Or.inl ⟨_, rfl⟩

theorem perform_ok_sdpi_none (env : Env) (opts : CheckOptions) (st0 : Storage) (s0 : State)
    (r : UpdateCheckResponse) (h : (perform_update_check env opts st0 s0).result = .ok r) :
    r.server_dictated_poll_interval = none := by
  rcases perform_result_cases env opts st0 s0 with ⟨e, he⟩ | ⟨resp, action, hok⟩
  · rw [he] at h; exact absurd h (by simp)
  · rw [hok] at h
    have : make_response resp action = r := by exact Except.ok.inj h
    rw [← this]
    rfl

/-- The staged data is unaffected by a commit, successful or not. -/
theorem commit_data (st : Storage) (b : Bool) : (Storage.commit st b).data = st.data := by
  unfold Storage.commit
  split <;> rfl

/-! ## C10 -/

/-- C10: `make_response` clones the single aggregate action of the
attempt into the result of every app of the server response: the per-app
results are exactly `resp.apps.length` copies of `action`, one per app,
so no two apps of one attempt ever receive different actions. -/
theorem make_response_single_action (resp : Response) (action : Action) :
    (make_response resp action).app_responses.map (fun a => a.result)
        = List.replicate resp.apps.length action
    ∧ (make_response resp action).app_responses.length = resp.apps.length := by
  constructor
  · simp [make_response, List.map_map, Function.comp_def, List.map_const']
  · simp [make_response]

/-! ## C7 -/

/-- C7: in the scheduler loop, a `StartUpdateCheck` received while
idle-waiting is answered `Started` and its options replace the defaults
for the attempt, a timer wakeup uses the default options, and every
`StartUpdateCheck` received while the attempt is in progress is answered
`AlreadyRunning`, its options discarded, without disturbing the
attempt. -/
theorem control_requests_during_attempt (env : Env) (ctx : Context) (st0 : Storage)
    (s0 : State) (o : CheckOptions) (during : List CheckOptions) :
    (run_iteration env ctx st0 s0 (.controlMsg o) during).idleReplies
        = [StartUpdateCheckResponse.started]
    ∧ (run_iteration env ctx st0 s0 (.controlMsg o) during).attempt
        = start_update_check env o ctx st0 s0
    ∧ (run_iteration env ctx st0 s0 .timerFired during).idleReplies = []
    ∧ (run_iteration env ctx st0 s0 .timerFired during).attempt
        = start_update_check env CheckOptions.default ctx st0 s0
    ∧ (run_iteration env ctx st0 s0 (.controlMsg o) during).attemptReplies
        = List.replicate during.length .alreadyRunning
    ∧ (run_iteration env ctx st0 s0 .timerFired during).attemptReplies
        = List.replicate during.length .alreadyRunning
    ∧ (run_iteration env ctx st0 s0 (.controlMsg o) during).attempt
        = (run_iteration env ctx st0 s0 (.controlMsg o) []).attempt := by
  refine ⟨rfl, rfl, rfl, rfl, ?_, ?_, rfl⟩ <;>
    simp [run_iteration, List.map_const']

/-! ## C1 -/

/-- C1 counterexample: an attempt whose parsed response carries a
server-dictated poll interval of 300 completes Ok, yet
`start_update_check` leaves `protocol_state.server_dictated_poll_interval`
at `none` — the interval carried by the parsed response is not
propagated, because `make_response` constructs every attempt result with
`server_dictated_poll_interval = None`. -/
theorem server_poll_interval_dropped_cex :
    (start_update_check demoEnv CheckOptions.default demoContext emptyStorage .idle).result
        = .ok (make_response demoResponse .noUpdate)
    ∧ StateMachineEvent.omahaServerResponse demoResponse
        ∈ (start_update_check demoEnv CheckOptions.default demoContext emptyStorage
            .idle).events
    ∧ demoResponse.server_dictated_poll_interval = some 300
    ∧ ¬ (start_update_check demoEnv CheckOptions.default demoContext emptyStorage
          .idle).context.state.server_dictated_poll_interval = some 300 := by
  refine ⟨by decide, by decide, by decide, by decide⟩

/-- C1 amended: for every attempt whose update check completes Ok,
`start_update_check` sets `schedule.last_update_time` to now and sets
`protocol_state.server_dictated_poll_interval` to the interval carried by
the attempt result — which is always `none`, since `make_response`
constructs every result with `server_dictated_poll_interval = None`
regardless of the parsed response. -/
theorem server_poll_interval_always_none (env : Env) (opts : CheckOptions) (ctx : Context)
    (st0 : Storage) (s0 : State) (r : UpdateCheckResponse)
    (h : (perform_update_check env opts st0 s0).result = .ok r) :
    (start_update_check env opts ctx st0 s0).context.schedule.last_update_time
        = some env.nowMicros
    ∧ (start_update_check env opts ctx st0 s0).context.state.server_dictated_poll_interval
        = r.server_dictated_poll_interval
    ∧ r.server_dictated_poll_interval = none := by
  have hnone := perform_ok_sdpi_none env opts st0 s0 r h
  refine ⟨?_, ?_, hnone⟩ <;> simp [start_update_check, h, hnone]

/-! ## C2 -/

/-- C2: every failed attempt is classified exactly as the claim states —
ResponseParser and InstallPlan errors are Omaha and set
`schedule.last_update_time` to now (and only those), Policy and
OmahaRequest Json/HttpBuilder errors are Internal, OmahaRequest
Hyper/HttpStatus errors are Network — and `start_update_check` reports
that classification and applies that schedule update. -/
theorem failure_classification (env : Env) (opts : CheckOptions) (ctx : Context)
    (st0 : Storage) (s0 : State) (e : UpdateCheckError) (pe : ResponseParseError)
    (d : CheckDecision) (u : Bool) (c : Nat) (sched : UpdateCheckSchedule) (t : Int)
    (he : (perform_update_check env opts st0 s0).result = .error e) :
    Metrics.updateCheckFailureReason (fail_bookkeeping e ctx.schedule env.nowMicros).2
        ∈ (start_update_check env opts ctx st0 s0).metrics
    ∧ (start_update_check env opts ctx st0 s0).context.schedule
        = (fail_bookkeeping e ctx.schedule env.nowMicros).1
    ∧ fail_bookkeeping (.responseParser pe) sched t
        = ({ sched with last_update_time := some t }, .omaha)
    ∧ fail_bookkeeping .installPlan sched t
        = ({ sched with last_update_time := some t }, .omaha)
    ∧ fail_bookkeeping (.policy d) sched t = (sched, .internal)
    ∧ fail_bookkeeping (.omahaRequest .json) sched t = (sched, .internal)
    ∧ fail_bookkeeping (.omahaRequest .httpBuilder) sched t = (sched, .internal)
    ∧ fail_bookkeeping (.omahaRequest (.hyper u)) sched t = (sched, .network)
    ∧ fail_bookkeeping (.omahaRequest (.httpStatus c)) sched t = (sched, .network) := by
  refine ⟨?_, ?_, rfl, rfl, rfl, rfl, rfl, rfl, rfl⟩ <;>
    simp [start_update_check, he]

/-- C2, witnessed at the concrete all-exchanges-fail attempt: the failure
is `OmahaRequest(HttpStatus 500)`, classified Network, and the schedule
is left unchanged. -/
theorem failure_classification_witness :
    Metrics.updateCheckFailureReason
        (fail_bookkeeping (.omahaRequest (.httpStatus 500)) demoContext.schedule
          demoEnvNetworkFail.nowMicros).2
      ∈ (start_update_check demoEnvNetworkFail CheckOptions.default demoContext emptyStorage
          .idle).metrics
    ∧ (start_update_check demoEnvNetworkFail CheckOptions.default demoContext emptyStorage
        .idle).context.schedule
      = (fail_bookkeeping (.omahaRequest (.httpStatus 500)) demoContext.schedule
          demoEnvNetworkFail.nowMicros).1 := by
  have h := failure_classification demoEnvNetworkFail CheckOptions.default demoContext
    emptyStorage .idle (.omahaRequest (.httpStatus 500)) .json .tooSoon true 500
    demoContext.schedule 0 (by decide)
  exact ⟨h.1, h.2.1⟩

/-! ## C3 -/

/-- C3: for every completed attempt, the in-memory
`consecutive_failed_update_checks` counter is reset to 0 exactly when the
result is Ok, and is incremented by exactly one on every Err result (the
hypothesis rules out u32 wraparound, which first matters after 2^32 - 1
consecutive failures). -/
theorem consecutive_failed_checks_counter (env : Env) (opts : CheckOptions) (ctx : Context)
    (st0 : Storage) (s0 : State)
    (hof : ctx.state.consecutive_failed_update_checks + 1 < 2 ^ 32) :
    (resultIsOk (perform_update_check env opts st0 s0).result = true →
      (start_update_check env opts ctx st0 s0).context.state.consecutive_failed_update_checks
        = 0)
    ∧ (resultIsOk (perform_update_check env opts st0 s0).result = false →
      (start_update_check env opts ctx st0 s0).context.state.consecutive_failed_update_checks
        = ctx.state.consecutive_failed_update_checks + 1)
    ∧ ((start_update_check env opts ctx st0 s0).context.state.consecutive_failed_update_checks
          = 0
        ↔ resultIsOk (perform_update_check env opts st0 s0).result = true) := by
  have hmod : u32Incr ctx.state.consecutive_failed_update_checks
      = ctx.state.consecutive_failed_update_checks + 1 := by
    simpa [u32Incr] using Nat.mod_eq_of_lt hof
  cases hp : (perform_update_check env opts st0 s0).result with
  | ok r =>
    refine ⟨fun _ => ?_, fun hc => by simp [resultIsOk, hp] at hc, ?_⟩ <;>
      simp [start_update_check, hp, resultIsOk]
  | error e =>
    refine ⟨fun hc => by simp [resultIsOk, hp] at hc, fun _ => ?_, ?_⟩ <;>
      simp [start_update_check, hp, resultIsOk, hmod]

/-- C3, witnessed at the concrete failing attempt: the counter goes from
2 to 3, and is nonzero because the attempt failed. -/
theorem consecutive_failed_checks_counter_witness :
    demoContext.state.consecutive_failed_update_checks + 1 < 2 ^ 32
    ∧ (start_update_check demoEnvNetworkFail CheckOptions.default demoContext emptyStorage
        .idle).context.state.consecutive_failed_update_checks
      = demoContext.state.consecutive_failed_update_checks + 1
    ∧ ((start_update_check demoEnvNetworkFail CheckOptions.default demoContext emptyStorage
          .idle).context.state.consecutive_failed_update_checks = 0
        ↔ resultIsOk (perform_update_check demoEnvNetworkFail CheckOptions.default
            emptyStorage .idle).result = true) := by
  have h := consecutive_failed_checks_counter demoEnvNetworkFail CheckOptions.default
    demoContext emptyStorage .idle (by decide)
  exact ⟨by decide, h.2.1 (by decide), h.2.2⟩

/-! ## C4 -/

theorem pipelineChecking_triplet_countP (env : Env) (rp : RequestParams) (st0 : Storage) :
    (pipelineChecking env rp st0).events.countP isTripletEvent = 0 := by
  simp only [pipelineChecking]
  repeat' split
  all_goals simp [isTripletEvent, isScheduleChange, isProtocolStateChange,
    isUpdateCheckResult, List.countP_append, List.countP_cons, List.countP_map,
    Function.comp_def]

theorem perform_triplet_countP (env : Env) (opts : CheckOptions) (st0 : Storage)
    (s0 : State) :
    (perform_update_check env opts st0 s0).events.countP isTripletEvent = 0 := by
  simp only [perform_update_check]
  split
  any_goals exact pipelineChecking_triplet_countP env _ st0
  all_goals simp

/-- C4: for every completed attempt, exactly one ScheduleChange, one
ProtocolStateChange and one UpdateCheckResult are emitted after the
pipeline result is known (the pipeline itself emits none of the three),
in that order, and the attempt event sequence ends with
StateChange(Idle) emitted after that triplet; the reboot gate that runs
between the triplet and the Idle transition emits no events. -/
theorem attempt_event_order (env : Env) (opts : CheckOptions) (ctx : Context)
    (st0 : Storage) (s0 : State) :
    (start_update_check env opts ctx st0 s0).events
        = (perform_update_check env opts st0 s0).events ++
          [.scheduleChange (start_update_check env opts ctx st0 s0).context.schedule,
            .protocolStateChange (start_update_check env opts ctx st0 s0).context.state,
            .updateCheckResult (start_update_check env opts ctx st0 s0).result,
            .stateChange .idle]
    ∧ (perform_update_check env opts st0 s0).events.countP isTripletEvent = 0
    ∧ (start_update_check env opts ctx st0 s0).events.countP isScheduleChange = 1
    ∧ (start_update_check env opts ctx st0 s0).events.countP isProtocolStateChange = 1
    ∧ (start_update_check env opts ctx st0 s0).events.countP isUpdateCheckResult = 1
    ∧ (start_update_check env opts ctx st0 s0).events.getLast?
        = some (.stateChange .idle) := by
  have hz := perform_triplet_countP env opts st0 s0
  have hmem := List.countP_eq_zero.mp hz
  have hs : (perform_update_check env opts st0 s0).events.countP isScheduleChange = 0 :=
    List.countP_eq_zero.mpr fun a ha hsa =>
      hmem a ha (by simp [isTripletEvent, hsa])
  have hpc :
      (perform_update_check env opts st0 s0).events.countP isProtocolStateChange = 0 :=
    List.countP_eq_zero.mpr fun a ha hsa =>
      hmem a ha (by simp [isTripletEvent, hsa])
  have hu : (perform_update_check env opts st0 s0).events.countP isUpdateCheckResult = 0 :=
    List.countP_eq_zero.mpr fun a ha hsa =>
      hmem a ha (by simp [isTripletEvent, hsa])
  have hstruct : (start_update_check env opts ctx st0 s0).events
      = (perform_update_check env opts st0 s0).events ++
        [.scheduleChange (start_update_check env opts ctx st0 s0).context.schedule,
          .protocolStateChange (start_update_check env opts ctx st0 s0).context.state,
          .updateCheckResult (start_update_check env opts ctx st0 s0).result,
          .stateChange .idle] := rfl
  refine ⟨hstruct, hz, ?_, ?_, ?_, ?_⟩ <;>
    simp [hstruct, List.countP_append, List.countP_cons, hs, hpc, hu,
      isScheduleChange, isProtocolStateChange, isUpdateCheckResult,
      List.getLast?_append]

/-! ## C5 -/

theorem requestLoopGo_attempts_le (exchange : Nat → ExchangeOutcome) (rand : Nat → Nat)
    (maxAttempts : Nat) :
    ∀ fuel attempt, attempt ≤ maxAttempts →
      (requestLoopGo exchange rand maxAttempts fuel attempt).1.attempts ≤ maxAttempts := by
  intro fuel
  induction fuel with
  | zero =>
    intro attempt h
    unfold requestLoopGo
    split
    · simpa [LoopResult.attempts]
    · split
      · simpa [LoopResult.attempts]
      · simpa [LoopResult.attempts]
  | succ fuel ih =>
    intro attempt h
    unfold requestLoopGo
    split
    · simpa [LoopResult.attempts]
    · rename_i e hex
      split
      · simpa [LoopResult.attempts]
      · rename_i hterm
        have hlt : attempt + 1 ≤ maxAttempts := by
          cases e with
          | json => simp [retryTerminal] at hterm
          | httpBuilder => simp [retryTerminal] at hterm
          | hyper is_user =>
            simp only [retryTerminal, Bool.or_eq_true, decide_eq_true_eq] at hterm
            omega
          | httpStatus c =>
            simp only [retryTerminal, decide_eq_true_eq] at hterm
            omega
        simpa [LoopResult.attempts] using ih (attempt + 1) hlt

theorem performRequestLoop_attempts_le (exchange : Nat → ExchangeOutcome)
    (rand : Nat → Nat) : (performRequestLoop exchange rand).1.attempts ≤ 3 :=
  requestLoopGo_attempts_le exchange rand 3 3 1 (by norm_num)

theorem report_check_interval_no_retries (env : Env) (st0 : Storage) (n : Nat) :
    Metrics.updateCheckRetries n ∉ (report_check_interval env st0).2 := by
  unfold report_check_interval
  repeat' split
  all_goals simp

theorem pipeline_retries_attempts (env : Env) (rp : RequestParams) (st0 : Storage) (n : Nat) :
    Metrics.updateCheckRetries n ∈ (pipelineChecking env rp st0).metrics →
      n = (performRequestLoop env.exchange env.rand).1.attempts := by
  have hrci := report_check_interval_no_retries env st0 n
  simp only [pipelineChecking]
  repeat' split
  all_goals intro hm
  all_goals simp_all [LoopResult.attempts]

/-- A retryable error is not terminal before the attempt budget is
reached. -/
theorem retryable_not_terminal (e : OmahaRequestError) (attempt maxAttempts : Nat)
    (hre : retryableErr e = true) (hlt : attempt < maxAttempts) :
    retryTerminal e attempt maxAttempts = false := by
  cases e <;> simp_all [retryableErr, retryTerminal]

/-- Every error is terminal once the attempt budget is reached. -/
theorem third_attempt_terminal (e : OmahaRequestError) :
    retryTerminal e 3 3 = true := by
  cases e <;> simp [retryTerminal]

/-- C5: the request loop performs at most 3 exchanges per attempt: Json
and HttpBuilder errors terminate the loop immediately with no retry and
no sleep, a user transport error terminates immediately, retryable
errors on the first and second exchange are retried after one backoff
sleep each, the loop terminates with the error of the 3rd failed
exchange, and the attempts count reported via UpdateCheckRetries is at
most 3. -/
theorem request_loop_retry_policy (ex exJ exB exU : Nat → ExchangeOutcome)
    (rand : Nat → Nat) (env : Env) (opts : CheckOptions) (st0 : Storage) (s0 : State)
    (e1 e2 e3 : OmahaRequestError) (n : Nat)
    (hJ : exJ 1 = .error .json) (hB : exB 1 = .error .httpBuilder)
    (hU : exU 1 = .error (.hyper true))
    (h1 : ex 1 = .error e1) (h2 : ex 2 = .error e2) (h3 : ex 3 = .error e3)
    (hr1 : retryableErr e1 = true) (hr2 : retryableErr e2 = true)
    (hm : Metrics.updateCheckRetries n ∈ (perform_update_check env opts st0 s0).metrics) :
    (performRequestLoop ex rand).1.attempts ≤ 3
    ∧ performRequestLoop exJ rand = (.failure .json 1, [])
    ∧ performRequestLoop exB rand = (.failure .httpBuilder 1, [])
    ∧ performRequestLoop exU rand = (.failure (.hyper true) 1, [])
    ∧ performRequestLoop ex rand
        = (.failure e3 3, [randomize 1000 1000 (rand 1), randomize 2000 1000 (rand 2)])
    ∧ n ≤ 3 := by
  have ht1 : retryTerminal e1 1 3 = false := retryable_not_terminal e1 1 3 hr1 (by norm_num)
  have ht2 : retryTerminal e2 2 3 = false := retryable_not_terminal e2 2 3 hr2 (by norm_num)
  have ht3 := third_attempt_terminal e3
  refine ⟨performRequestLoop_attempts_le ex rand, ?_, ?_, ?_, ?_, ?_⟩
  · unfold performRequestLoop requestLoopGo
    simp [hJ, retryTerminal]
  · unfold performRequestLoop requestLoopGo
    simp [hB, retryTerminal]
  · unfold performRequestLoop requestLoopGo
    simp [hU, retryTerminal]
  · unfold performRequestLoop
    unfold requestLoopGo
    simp only [h1, ht1, Bool.false_eq_true, if_neg, Bool.not_eq_true]
    unfold requestLoopGo
    simp only [h2, ht2, Bool.false_eq_true, if_neg, Bool.not_eq_true]
    unfold requestLoopGo
    simp [h3, ht3]
  · have : n = (performRequestLoop env.exchange env.rand).1.attempts := by
      revert hm
      simp only [perform_update_check]
      split
      any_goals exact pipeline_retries_attempts env _ st0 n
      all_goals intro hm
      all_goals simp at hm
    rw [this]
    exact performRequestLoop_attempts_le env.exchange env.rand

/-- C5, witnessed: three failing HTTP-status exchanges produce the
terminal error after the 3rd exchange with two backoff sleeps, the
non-retryable errors terminate immediately, and the retries reported by
the successful demo attempt are 1 ≤ 3. -/
theorem request_loop_retry_policy_witness :
    (performRequestLoop (fun _ => .error (.httpStatus 500)) (fun i => 100 * i)).1.attempts ≤ 3
    ∧ performRequestLoop (fun _ => .error .json) (fun i => 100 * i)
        = (.failure .json 1, [])
    ∧ performRequestLoop (fun _ => .error .httpBuilder) (fun i => 100 * i)
        = (.failure .httpBuilder 1, [])
    ∧ performRequestLoop (fun _ => .error (.hyper true)) (fun i => 100 * i)
        = (.failure (.hyper true) 1, [])
    ∧ performRequestLoop (fun _ => .error (.httpStatus 500)) (fun i => 100 * i)
        = (.failure (.httpStatus 500) 3, [600, 1700])
    ∧ 1 ≤ 3 := by
  have h := request_loop_retry_policy (fun _ => .error (.httpStatus 500))
    (fun _ => .error .json) (fun _ => .error .httpBuilder) (fun _ => .error (.hyper true))
    (fun i => 100 * i) demoEnv CheckOptions.default emptyStorage .idle
    (.httpStatus 500) (.httpStatus 500) (.httpStatus 500) 1
    rfl rfl rfl rfl rfl rfl (by decide) (by decide) (by decide)
  refine ⟨h.1, h.2.1, h.2.2.1, h.2.2.2.1, ?_, h.2.2.2.2.2⟩
  have h5 := h.2.2.2.2.1
  rw [h5]
  norm_num [randomize]

/-! ## C6 -/

/-- `randomize n r` maps every draw into `[n - r/2, n - r/2 + r)` when
its inputs are in the u64 range the source uses. -/
theorem randomize_mem (n r rv : Nat) (hr : 0 < r) (hrn : r ≤ n) (hn : n + r ≤ 2 ^ 64) :
    n - r / 2 ≤ randomize n r rv ∧ randomize n r rv < n - r / 2 + r := by
  have hm : rv % r < r := Nat.mod_lt rv hr
  have key : randomize n r rv = n - r / 2 + rv % r := by
    unfold randomize
    generalize rv % r = m at hm
    have e1 : n + 2 ^ 64 - r / 2 + m = 2 ^ 64 + (n - r / 2 + m) := by omega
    rw [e1, Nat.add_mod_left]
    exact Nat.mod_eq_of_lt (by omega)
  omega

/-- The sleeps performed when the first two exchanges fail with
retryable errors: exactly the two backoffs of the source, whatever the
third exchange does. -/
theorem sleeps_after_two_failures (ex : Nat → ExchangeOutcome) (rand : Nat → Nat)
    (e1 e2 : OmahaRequestError) (h1 : ex 1 = .error e1) (h2 : ex 2 = .error e2)
    (hre1 : retryableErr e1 = true) (hre2 : retryableErr e2 = true) :
    (performRequestLoop ex rand).2
      = [randomize 1000 1000 (rand 1), randomize 2000 1000 (rand 2)] := by
  have ht1 : retryTerminal e1 1 3 = false := retryable_not_terminal e1 1 3 hre1 (by norm_num)
  have ht2 : retryTerminal e2 2 3 = false := retryable_not_terminal e2 2 3 hre2 (by norm_num)
  unfold performRequestLoop
  unfold requestLoopGo
  simp only [h1, ht1, Bool.false_eq_true, if_neg, Bool.not_eq_true]
  unfold requestLoopGo
  simp only [h2, ht2, Bool.false_eq_true, if_neg, Bool.not_eq_true]
  unfold requestLoopGo
  cases hx : ex 3 with
  | ok d => simp [hx]
  | error e => simp [hx, third_attempt_terminal e]

/-- C6 counterexample: `randomize(1000, 1000)` is not uniform on
[500, 1500).  Under a uniform u64 draw, the output 500 is hit by one
more draw than the output 1499, because 2^64 mod 1000 = 616 ≠ 0 and
`rand % range` is biased toward the low residues.  Both outputs lie in
the claimed interval `[n - r/2, n - r/2 + r)`. -/
theorem randomize_not_uniform_cex :
    1000 - 1000 / 2 ≤ 500 ∧ (500 : Nat) < 1000 - 1000 / 2 + 1000
    ∧ 1000 - 1000 / 2 ≤ 1499 ∧ (1499 : Nat) < 1000 - 1000 / 2 + 1000
    ∧ fiberCount 1000 1000 500 ≠ fiberCount 1000 1000 1499 := by
  refine ⟨by norm_num, by norm_num, by norm_num, by norm_num, ?_⟩
  unfold fiberCount
  have h1 : Nat.count (fun x => randomize 1000 1000 x = 500) (2 ^ 64)
      = Nat.count (· ≡ 0 [MOD 1000]) (2 ^ 64) := by
    rw [Nat.count_eq_card_filter_range, Nat.count_eq_card_filter_range]
    exact congrArg Finset.card (Finset.filter_congr fun x _ => by
      unfold randomize Nat.ModEq
      constructor <;> omega)
  have h2 : Nat.count (fun x => randomize 1000 1000 x = 1499) (2 ^ 64)
      = Nat.count (· ≡ 999 [MOD 1000]) (2 ^ 64) := by
    rw [Nat.count_eq_card_filter_range, Nat.count_eq_card_filter_range]
    exact congrArg Finset.card (Finset.filter_congr fun x _ => by
      unfold randomize Nat.ModEq
      constructor <;> omega)
  rw [h1, h2, Nat.count_modEq_card _ (by norm_num), Nat.count_modEq_card _ (by norm_num)]
  norm_num

/-- C6 amended: `randomize(n, r)` returns an integer in
`[n - r/2, n - r/2 + r)` (only approximately uniform, by the modulo
bias of the counterexample), and when the first two exchanges fail with
retryable errors the sleeps are `randomize(1000, 1000)` ms before the
second exchange and `randomize(2000, 1000)` ms before the third, i.e.
values in [500, 1500) and [1500, 2500). -/
theorem randomize_range_and_backoff (n r rv : Nat) (ex : Nat → ExchangeOutcome)
    (rand : Nat → Nat) (e1 e2 : OmahaRequestError)
    (hr : 0 < r) (hrn : r ≤ n) (hn : n + r ≤ 2 ^ 64)
    (h1 : ex 1 = .error e1) (h2 : ex 2 = .error e2)
    (hre1 : retryableErr e1 = true) (hre2 : retryableErr e2 = true) :
    n - r / 2 ≤ randomize n r rv
    ∧ randomize n r rv < n - r / 2 + r
    ∧ (performRequestLoop ex rand).2
        = [randomize 1000 1000 (rand 1), randomize 2000 1000 (rand 2)]
    ∧ 500 ≤ randomize 1000 1000 (rand 1) ∧ randomize 1000 1000 (rand 1) < 1500
    ∧ 1500 ≤ randomize 2000 1000 (rand 2) ∧ randomize 2000 1000 (rand 2) < 2500 := by
  obtain ⟨ha, hb⟩ := randomize_mem n r rv hr hrn hn
  obtain ⟨hc, hd⟩ := randomize_mem 1000 1000 (rand 1) (by norm_num) (by norm_num) (by norm_num)
  obtain ⟨he, hf⟩ := randomize_mem 2000 1000 (rand 2) (by norm_num) (by norm_num) (by norm_num)
  exact ⟨ha, hb, sleeps_after_two_failures ex rand e1 e2 h1 h2 hre1 hre2,
    by simpa using hc, by simpa using hd, by simpa using he, by simpa using hf⟩

/-- C6 amended, witnessed at a concrete failing exchange and concrete
draws: the sleeps are 600 ms and 1700 ms. -/
theorem randomize_range_and_backoff_witness :
    (performRequestLoop (fun _ => .error (.hyper false)) (fun i => 100 * i)).2
        = [randomize 1000 1000 100, randomize 2000 1000 200]
    ∧ randomize 1000 1000 100 = 600
    ∧ randomize 2000 1000 200 = 1700
    ∧ 500 ≤ randomize 1000 1000 100 ∧ randomize 1000 1000 100 < 1500
    ∧ 1500 ≤ randomize 2000 1000 200 ∧ randomize 2000 1000 200 < 2500 := by
  have h := randomize_range_and_backoff 1000 1000 100
    (fun _ => .error (.hyper false)) (fun i => 100 * i) (.hyper false) (.hyper false)
    (by norm_num) (by norm_num) (by norm_num) rfl rfl (by decide) (by decide)
  refine ⟨h.2.2.1, by decide, by decide, ?_, ?_, ?_, ?_⟩
  · simpa using h.2.2.2.1
  · simpa using h.2.2.2.2.1
  · simpa using h.2.2.2.2.2.1
  · simpa using h.2.2.2.2.2.2

/-! ## C8 -/

/-- C8: `record_update_first_seen_time` returns the stored first-seen
time and leaves storage untouched when the stored `install_plan_id`
matches; writes the new id and the current time and returns the current
time when the id is absent or different; on a failed first-seen write it
removes the just-written id (best-effort rollback) and still returns the
current time; and the commit outcome never affects the returned
value. -/
theorem record_first_seen_semantics (st : Storage) (flags : StorageFlags)
    (planId : String) (now t : Int) :
    (st.data.getString INSTALL_PLAN_ID = some planId →
      st.data.getInt UPDATE_FIRST_SEEN_TIME = some t →
      record_update_first_seen_time flags st planId now = (t, st))
    ∧ (st.data.getString INSTALL_PLAN_ID ≠ some planId →
      flags.setPlanIdOk = true → flags.setFirstSeenOk = true →
      record_update_first_seen_time flags st planId now
          = (now, Storage.commit
              { st with data :=
                  ((st.data.setString INSTALL_PLAN_ID planId).setInt
                    UPDATE_FIRST_SEEN_TIME now) }
              flags.commitFirstSeenOk)
        ∧ (record_update_first_seen_time flags st planId now).2.data.getString
            INSTALL_PLAN_ID = some planId
        ∧ (record_update_first_seen_time flags st planId now).2.data.getInt
            UPDATE_FIRST_SEEN_TIME = some now)
    ∧ (st.data.getString INSTALL_PLAN_ID ≠ some planId →
      flags.setPlanIdOk = true → flags.setFirstSeenOk = false →
      flags.removePlanIdOk = true →
      (record_update_first_seen_time flags st planId now).1 = now
        ∧ (record_update_first_seen_time flags st planId now).2.data INSTALL_PLAN_ID = none
        ∧ (record_update_first_seen_time flags st planId now).2.data UPDATE_FIRST_SEEN_TIME
            = st.data UPDATE_FIRST_SEEN_TIME)
    ∧ (record_update_first_seen_time { flags with commitFirstSeenOk := true } st planId
          now).1
        = (record_update_first_seen_time { flags with commitFirstSeenOk := false } st planId
            now).1 := by
  refine ⟨?_, ?_, ?_, ?_⟩
  · intro h1 h2
    simp [record_update_first_seen_time, h1, h2]
  · intro hm hsp hsf
    have hred : record_update_first_seen_time flags st planId now
        = (now, Storage.commit
            { st with data :=
                ((st.data.setString INSTALL_PLAN_ID planId).setInt
                  UPDATE_FIRST_SEEN_TIME now) }
            flags.commitFirstSeenOk) := by
      cases hs : st.data.getString INSTALL_PLAN_ID with
      | none => simp [record_update_first_seen_time, hs, hsp, hsf]
      | some prev =>
        have hne : prev ≠ planId := fun hEq => hm (hEq ▸ hs)
        simp [record_update_first_seen_time, hs, hne, hsp, hsf]
    refine ⟨hred, ?_, ?_⟩ <;>
      simp [hred, commit_data, KV.getString, KV.getInt, KV.setInt, KV.setString,
        INSTALL_PLAN_ID, UPDATE_FIRST_SEEN_TIME]
  · intro hm hsp hsf hrm
    have hred : record_update_first_seen_time flags st planId now
        = (now, { st with data :=
            ((st.data.setString INSTALL_PLAN_ID planId).removeKey INSTALL_PLAN_ID) }) := by
      cases hs : st.data.getString INSTALL_PLAN_ID with
      | none => simp [record_update_first_seen_time, hs, hsp, hsf, hrm]
      | some prev =>
        have hne : prev ≠ planId := fun hEq => hm (hEq ▸ hs)
        simp [record_update_first_seen_time, hs, hne, hsp, hsf, hrm]
    refine ⟨by rw [hred], ?_, ?_⟩ <;>
      simp [hred, KV.removeKey, KV.setString, INSTALL_PLAN_ID, UPDATE_FIRST_SEEN_TIME]
  · unfold record_update_first_seen_time
    repeat' split
    all_goals simp_all

/-- C8, witnessed: re-observing "plan0" returns the stored time 100 and
leaves the storage untouched; observing a new "plan1" writes it with the
current time 999 and returns 999. -/
theorem record_first_seen_semantics_witness :
    record_update_first_seen_time allStorageOk demoStorageFirstSeen "plan0" 999
        = (100, demoStorageFirstSeen)
    ∧ (record_update_first_seen_time allStorageOk demoStorageFirstSeen "plan1"
        999).2.data.getString INSTALL_PLAN_ID = some "plan1"
    ∧ (record_update_first_seen_time allStorageOk demoStorageFirstSeen "plan1"
        999).2.data.getInt UPDATE_FIRST_SEEN_TIME = some 999
    ∧ (record_update_first_seen_time allStorageOk demoStorageFirstSeen "plan1" 999).1
        = 999 := by
  have ha := (record_first_seen_semantics demoStorageFirstSeen allStorageOk "plan0"
    999 100).1 (by decide) (by decide)
  have hb := (record_first_seen_semantics demoStorageFirstSeen allStorageOk "plan1"
    999 100).2.1 (by decide) (by decide) (by decide)
  refine ⟨ha, hb.2.1, hb.2.2, ?_⟩
  rw [hb.1]

/-! ## C9 -/

/-- Writing an option a key already holds changes nothing. -/
theorem setOptionInt_id (m : KV) (k : String) (v : Option Int)
    (h : m k = v.map StoredValue.intVal) : m.setOptionInt k v = m := by
  funext k2
  cases v with
  | some x =>
    simp only [KV.setOptionInt, KV.setInt]
    split
    · rename_i hk; rw [hk, h]; rfl
    · rfl
  | none =>
    simp only [KV.setOptionInt, KV.removeKey]
    split
    · rename_i hk; rw [hk, h]; rfl
    · rfl

/-- Re-persisting app records a map already holds changes nothing. -/
theorem foldl_persistApp_id (apps : List App) (m : KV)
    (h : ∀ a ∈ apps,
      m a.id = some (.strVal (encodePersistedApp a.cohort a.user_counting))) :
    apps.foldl
        (fun d app => d.setString app.id (encodePersistedApp app.cohort app.user_counting))
        m = m := by
  induction apps generalizing m with
  | nil => rfl
  | cons a rest ih =>
    have hstep : m.setString a.id (encodePersistedApp a.cohort a.user_counting) = m := by
      funext k
      unfold KV.setString
      split
      · rename_i hk; rw [hk]; exact (h a (by simp)).symm
      · rfl
    simp only [List.foldl_cons, hstep]
    exact ih m fun b hb => h b (by simp [hb])

/-- C9: when the policy gate answers TooSoon, ThrottledByPolicy or
DeniedByPolicy, the attempt fails with `Policy(decision)` before
entering CheckingForUpdates, and — provided the staged storage already
agrees with the in-memory context and app set, as it does after the
previous reconcile, and no app id collides with the counter key — the
persisted keys `last_check_time`, `install_plan_id` and
`update_first_seen_time` are unchanged and the only key whose value
changes, staged and durable, is the consecutive-failed-checks
counter. -/
theorem policy_denied_frame (env : Env) (opts : CheckOptions) (ctx : Context)
    (st0 : Storage) (s0 : State) (d : CheckDecision)
    (hd : env.update_check_allowed opts = d)
    (hneg : d = .tooSoon ∨ d = .throttledByPolicy ∨ d = .deniedByPolicy)
    (hset : env.flags.setConsecOk = true) (hcommit : env.flags.commitPersistOk = true)
    (hlut : st0.data LAST_UPDATE_TIME
      = ctx.schedule.last_update_time.map StoredValue.intVal)
    (hsdpi : st0.data SERVER_DICTATED_POLL_INTERVAL
      = ctx.state.server_dictated_poll_interval.map StoredValue.intVal)
    (happ : ∀ a ∈ env.apps,
      st0.data a.id = some (.strVal (encodePersistedApp a.cohort a.user_counting)))
    (hids : ∀ a ∈ env.apps, a.id ≠ CONSECUTIVE_FAILED_UPDATE_CHECKS) :
    (start_update_check env opts ctx st0 s0).result = .error (.policy d)
    ∧ StateMachineEvent.stateChange .checkingForUpdates
        ∉ (start_update_check env opts ctx st0 s0).events
    ∧ (start_update_check env opts ctx st0 s0).storage.data
        = st0.data.setInt CONSECUTIVE_FAILED_UPDATE_CHECKS
            ((st0.data.getInt CONSECUTIVE_FAILED_UPDATE_CHECKS).getD 0 + 1)
    ∧ (start_update_check env opts ctx st0 s0).storage.durable
        = st0.data.setInt CONSECUTIVE_FAILED_UPDATE_CHECKS
            ((st0.data.getInt CONSECUTIVE_FAILED_UPDATE_CHECKS).getD 0 + 1)
    ∧ (start_update_check env opts ctx st0 s0).storage.data.getString INSTALL_PLAN_ID
        = st0.data.getString INSTALL_PLAN_ID
    ∧ (start_update_check env opts ctx st0 s0).storage.data.getInt UPDATE_FIRST_SEEN_TIME
        = st0.data.getInt UPDATE_FIRST_SEEN_TIME
    ∧ (start_update_check env opts ctx st0 s0).storage.data.getInt LAST_CHECK_TIME
        = st0.data.getInt LAST_CHECK_TIME := by
  have hp : perform_update_check env opts st0 s0
      = { events := [], metrics := [], storage := st0, machineState := s0, sleeps := []
          result := .error (.policy d) } := by
    rcases hneg with h | h | h <;> subst h <;> simp [perform_update_check, hd]
  set mid : KV := st0.data.setInt CONSECUTIVE_FAILED_UPDATE_CHECKS
    ((st0.data.getInt CONSECUTIVE_FAILED_UPDATE_CHECKS).getD 0 + 1) with hmid
  have hkeyL : LAST_UPDATE_TIME ≠ CONSECUTIVE_FAILED_UPDATE_CHECKS := by decide
  have hkeyS : SERVER_DICTATED_POLL_INTERVAL ≠ CONSECUTIVE_FAILED_UPDATE_CHECKS := by decide
  have hmidL : mid LAST_UPDATE_TIME = ctx.schedule.last_update_time.map StoredValue.intVal := by
    rw [hmid]; unfold KV.setInt; rw [if_neg hkeyL]; exact hlut
  have hmidS : mid SERVER_DICTATED_POLL_INTERVAL
      = ctx.state.server_dictated_poll_interval.map StoredValue.intVal := by
    rw [hmid]; unfold KV.setInt; rw [if_neg hkeyS]; exact hsdpi
  have hmidApp : ∀ a ∈ env.apps,
      mid a.id = some (.strVal (encodePersistedApp a.cohort a.user_counting)) := by
    intro a ha
    rw [hmid]; unfold KV.setInt; rw [if_neg (hids a ha)]; exact happ a ha
  have hstorage : (start_update_check env opts ctx st0 s0).storage
      = { data := mid, durable := mid } := by
    simp [start_update_check, hp, fail_bookkeeping, persist_data,
      report_attempts_to_succeed, hset, hcommit, Storage.commit,
      setOptionInt_id mid LAST_UPDATE_TIME ctx.schedule.last_update_time hmidL,
      setOptionInt_id mid SERVER_DICTATED_POLL_INTERVAL
        ctx.state.server_dictated_poll_interval hmidS,
      foldl_persistApp_id env.apps mid hmidApp, ← hmid]
  have hres : (start_update_check env opts ctx st0 s0).result = .error (.policy d) := by
    simp [start_update_check, hp]
  have hev : (start_update_check env opts ctx st0 s0).events
      = [.scheduleChange (start_update_check env opts ctx st0 s0).context.schedule,
          .protocolStateChange (start_update_check env opts ctx st0 s0).context.state,
          .updateCheckResult (.error (.policy d)), .stateChange .idle] := by
    have : (start_update_check env opts ctx st0 s0).events
        = (perform_update_check env opts st0 s0).events ++
          [.scheduleChange (start_update_check env opts ctx st0 s0).context.schedule,
            .protocolStateChange (start_update_check env opts ctx st0 s0).context.state,
            .updateCheckResult (perform_update_check env opts st0 s0).result,
            .stateChange .idle] := rfl
    rw [this, hp]
    rfl
  refine ⟨hres, ?_, ?_, ?_, ?_, ?_, ?_⟩
  · rw [hev]; simp
  · rw [hstorage]
  · rw [hstorage]
  · rw [hstorage, hmid]
    simp [KV.getString, KV.setInt, INSTALL_PLAN_ID, CONSECUTIVE_FAILED_UPDATE_CHECKS]
  · rw [hstorage, hmid]
    simp [KV.getInt, KV.setInt, UPDATE_FIRST_SEEN_TIME, CONSECUTIVE_FAILED_UPDATE_CHECKS]
  · rw [hstorage, hmid]
    simp [KV.getInt, KV.setInt, LAST_CHECK_TIME, CONSECUTIVE_FAILED_UPDATE_CHECKS]

/-- C9, witnessed at a TooSoon policy answer over a storage holding the
demo app record: the attempt fails with Policy(TooSoon), never enters
CheckingForUpdates, and only the counter key changes. -/
theorem policy_denied_frame_witness :
    (start_update_check demoEnvTooSoon CheckOptions.default demoContext demoStorageWithApp
        .idle).result = .error (.policy .tooSoon)
    ∧ StateMachineEvent.stateChange .checkingForUpdates
        ∉ (start_update_check demoEnvTooSoon CheckOptions.default demoContext
            demoStorageWithApp .idle).events
    ∧ (start_update_check demoEnvTooSoon CheckOptions.default demoContext demoStorageWithApp
        .idle).storage.data.getString INSTALL_PLAN_ID
      = demoStorageWithApp.data.getString INSTALL_PLAN_ID
    ∧ (start_update_check demoEnvTooSoon CheckOptions.default demoContext demoStorageWithApp
        .idle).storage.data.getInt UPDATE_FIRST_SEEN_TIME
      = demoStorageWithApp.data.getInt UPDATE_FIRST_SEEN_TIME
    ∧ (start_update_check demoEnvTooSoon CheckOptions.default demoContext demoStorageWithApp
        .idle).storage.data.getInt LAST_CHECK_TIME
      = demoStorageWithApp.data.getInt LAST_CHECK_TIME := by
  have h := policy_denied_frame demoEnvTooSoon CheckOptions.default demoContext
    demoStorageWithApp .idle .tooSoon rfl (Or.inl rfl) (by decide) (by decide)
    (by decide) (by decide) (by decide) (by decide)
  exact ⟨h.1, h.2.1, h.2.2.2.2.1, h.2.2.2.2.2.1, h.2.2.2.2.2.2⟩

/-! ## C1 continued -/

/-- C1 amended, witnessed at the concrete no-update attempt. -/
theorem server_poll_interval_always_none_witness :
    (start_update_check demoEnv CheckOptions.default demoContext emptyStorage
        .idle).context.schedule.last_update_time = some 777
    ∧ (start_update_check demoEnv CheckOptions.default demoContext emptyStorage
        .idle).context.state.server_dictated_poll_interval
        = (make_response demoResponse .noUpdate).server_dictated_poll_interval
    ∧ (make_response demoResponse .noUpdate).server_dictated_poll_interval = none :=
  server_poll_interval_always_none demoEnv CheckOptions.default demoContext emptyStorage
    .idle (make_response demoResponse .noUpdate) (by decide)

end OmahaClient
